import Mathlib

/-!
Verification of the display-surface hand-off buffer
(`AndroidDisplaySurface` in `crosvm_android_display_client.cpp`).

Shallow embedding conventions:
* `uint32_t` values are `Nat`, with `% 2^32` applied exactly where C++
  arithmetic wraps (the `width * height * 4` product in
  `SinkANativeWindow_Buffer::configure`).
* `int32_t` struct fields (`ANativeWindow_Buffer.width/height/stride/format`)
  are `Int`; the `static_cast<int32_t>(uint32_t)` is `int32ofUInt32`.
* Pixel storage lives in an explicit heap `Heap : Nat → List Nat` mapping
  a pointer (allocation identity) to its byte contents.  `mBufferBits`
  of each `SinkANativeWindow_Buffer` is a stable pointer; `ANativeWindow_Buffer.bits`
  stores such a pointer, so struct copies alias storage exactly as in C++.
* Platform calls (`ANativeWindow_setBuffersGeometry`, `ANativeWindow_lock`,
  `ANativeWindow_unlockAndPost`, `Surface::get`) are resolved by an oracle
  (`WindowOracle`) supplied per call; theorems quantify over all oracles.
* `Result<void>` is `Except String Unit`; an early `return Error()` in C++
  leaves memory as mutated so far, so operations return their (possibly
  partially updated) state and heap alongside the `Except` value.
-/

/-- Heap: allocation pointer to byte contents (each byte a `Nat`). -/
def Heap : Type := Nat → List Nat

/-- Update the heap at one allocation. -/
def Heap.write (hp : Heap) (p : Nat) (v : List Nat) : Heap :=
  fun q => if q = p then v else hp q

/-- Read `len` bytes of `l` starting at byte offset `off` (models reading
through a pointer into the allocation). -/
def readBytes (l : List Nat) (off len : Nat) : List Nat :=
  (l.drop off).take len

/-- Overwrite bytes of `l` starting at offset `off` with `data`
(models `memcpy` into the allocation). -/
def writeBytes (l : List Nat) (off : Nat) (data : List Nat) : List Nat :=
  l.take off ++ data ++ l.drop (off + data.length)

/-- `std::vector<uint8_t>::resize(n)`: keep the first `n` bytes,
zero-fill any extension. -/
def listResize (l : List Nat) (n : Nat) : List Nat :=
  l.take n ++ List.replicate (n - l.length) 0

/-- `static_cast<int32_t>` of a `uint32_t` value. -/
def int32ofUInt32 (n : Nat) : Int :=
  if n % 2 ^ 32 < 2 ^ 31 then ((n % 2 ^ 32 : Nat) : Int)
  else ((n % 2 ^ 32 : Nat) : Int) - 2 ^ 32

/-- `HAL_PIXEL_FORMAT_BGRA_8888` (value 5 in `system/graphics.h`);
the fixed `kFormat` of `AndroidDisplaySurface`. -/
def kFormat : Int := 5

/-- `ANativeWindow_Buffer`: geometry fields are `int32_t`; `bits` is the
pointer to the pixel storage (a heap allocation id). -/
structure ANativeWindow_Buffer where
  width : Int
  height : Int
  stride : Int
  format : Int
  bits : Nat
deriving DecidableEq, Repr

/-- The requested-dimensions record (`struct Rect` with `uint32_t` fields). -/
structure Rect where
  width : Nat
  height : Nat
deriving DecidableEq, Repr

/-- An installed `Surface`; `hasWindow` records whether `surface->get()`
yields a non-null `ANativeWindow*`. -/
structure NativeSurface where
  hasWindow : Bool
deriving DecidableEq, Repr

/-- `SinkANativeWindow_Buffer`: the cached `ANativeWindow_Buffer` view plus
the stable pointer of its owned `mBufferBits` vector. -/
structure SinkANativeWindow_Buffer where
  mBuffer : ANativeWindow_Buffer
  storagePtr : Nat
deriving DecidableEq, Repr

/-- `SinkANativeWindow_Buffer::configure(width, height, format)`:
reject any non-BGRA format, else resize the byte vector to
`width * height * 4` (computed in `uint32_t`, hence `% 2^32`) and rebuild
the buffer view. -/
def SinkANativeWindow_Buffer.configure (b : SinkANativeWindow_Buffer) (hp : Heap)
    (width height : Nat) (format : Int) :
    SinkANativeWindow_Buffer × Heap × Except String Unit :=
  if format ≠ kFormat then
    (b, hp, .error ("Pixel format " ++ toString format ++ " is not BGRA_8888."))
  else
    let n := width * height * 4 % 2 ^ 32
    let bits := listResize (hp b.storagePtr) n
    let hp' := hp.write b.storagePtr bits
    ({ b with
        mBuffer :=
          { width := int32ofUInt32 width
            height := int32ofUInt32 height
            stride := int32ofUInt32 width
            format := format
            bits := b.storagePtr } },
      hp', .ok ())

/-- Byte offset of row `r` of buffer `b`: the C++ code indexes a
`uint32_t*` by `r * stride` words, i.e. `4 * (r * stride)` bytes.
A negative stride would be pointer UB in the source; `Int.toNat`
clamps that (unreachable) case to offset 0. -/
def rowStart (b : ANativeWindow_Buffer) (r : Nat) : Nat :=
  4 * ((r : Int) * b.stride).toNat

/-- `bytes_on_line = to.width * 4` of `copyBuffer`; a negative width would
make the `size_t` conversion UB territory in the source, modelled as 0. -/
def bytesOnLine (b : ANativeWindow_Buffer) : Nat :=
  (b.width * 4).toNat

/-- One iteration of the `copyBuffer` row loop: `memcpy` one line of
`bytesOnLine dst` bytes from row `r` of `src` into row `r` of `dst`. -/
def copyRow (hp : Heap) (src dst : ANativeWindow_Buffer) (r : Nat) : Heap :=
  hp.write dst.bits
    (writeBytes (hp dst.bits) (rowStart dst r)
      (readBytes (hp src.bits) (rowStart src r) (bytesOnLine dst)))

/-- Rows `0, 1, …, n-1` of the `copyBuffer` loop, executed in order. -/
def copyRowsAux (src dst : ANativeWindow_Buffer) (hp : Heap) : Nat → Heap
  | 0 => hp
  | n + 1 => copyRow (copyRowsAux src dst hp n) src dst n

/-- `copyBuffer(from, to)`: reject mismatched dimensions (leaving memory
untouched), else copy `to.height` lines. -/
def copyBuffer (hp : Heap) (src dst : ANativeWindow_Buffer) :
    Heap × Except String Unit :=
  if src.width ≠ dst.width ∨ src.height ≠ dst.height then
    (hp, .error ("dimension mismatch. from=(" ++ toString src.width ++ ", "
      ++ toString src.height ++ ") to=(" ++ toString dst.width ++ ", "
      ++ toString dst.height ++ ")"))
  else
    (copyRowsAux src dst hp dst.height.toNat, .ok ())

/-- The mutable state of one `AndroidDisplaySurface` instance. -/
structure AndroidDisplaySurface where
  mNativeSurface : Option NativeSurface
  mNativeSurfaceNeedsConfiguring : Bool
  mSinkBuffer : SinkANativeWindow_Buffer
  mLastBuffer : ANativeWindow_Buffer
  mSavedFrameBuffer : SinkANativeWindow_Buffer
  mRequestedSurfaceDimensions : Option Rect
deriving DecidableEq, Repr

/-- A freshly constructed `AndroidDisplaySurface`.  The POD members
(`mBuffer` views, `mLastBuffer`) are default-initialized to indeterminate
values in C++, so they are parameters here; the two owned byte vectors
start empty at their stable pointers. -/
def AndroidDisplaySurface.init (sinkPtr savedPtr : Nat)
    (sinkGarbage lastGarbage savedGarbage : ANativeWindow_Buffer) :
    AndroidDisplaySurface :=
  { mNativeSurface := none
    mNativeSurfaceNeedsConfiguring := true
    mSinkBuffer := ⟨sinkGarbage, sinkPtr⟩
    mLastBuffer := lastGarbage
    mSavedFrameBuffer := ⟨savedGarbage, savedPtr⟩
    mRequestedSurfaceDimensions := none }

/-- `setNativeSurface`: install the surface, mark geometry dirty
(and notify the condition variable, modelled in the waiter system below). -/
def AndroidDisplaySurface.setNativeSurface (s : AndroidDisplaySurface)
    (surf : NativeSurface) : AndroidDisplaySurface :=
  { s with mNativeSurface := some surf, mNativeSurfaceNeedsConfiguring := true }

/-- `removeSurface`: clear the surface slot (the dirty flag is untouched). -/
def AndroidDisplaySurface.removeSurface (s : AndroidDisplaySurface) :
    AndroidDisplaySurface :=
  { s with mNativeSurface := none }

/-- `configure(width, height)`: record the requested dimensions, then
configure the sink buffer and the saved-frame buffer with `kFormat`. -/
def AndroidDisplaySurface.configure (s : AndroidDisplaySurface) (hp : Heap)
    (width height : Nat) :
    AndroidDisplaySurface × Heap × Except String Unit :=
  let s := { s with mRequestedSurfaceDimensions := some ⟨width, height⟩ }
  match s.mSinkBuffer.configure hp width height kFormat with
  | (sb, hp, .error e) =>
    ({ s with mSinkBuffer := sb }, hp,
      .error ("Failed to configure sink buffer: " ++ e))
  | (sb, hp, .ok _) =>
    match s.mSavedFrameBuffer.configure hp width height kFormat with
    | (fb, hp, .error e) =>
      ({ s with mSinkBuffer := sb, mSavedFrameBuffer := fb }, hp,
        .error ("Failed to configure saved frame buffer: " ++ e))
    | (fb, hp, .ok _) =>
      ({ s with mSinkBuffer := sb, mSavedFrameBuffer := fb }, hp, .ok ())

/-- Outcomes of the platform window calls made during a single
`lock`/`drawSavedFrame`/`unlockAndPost` invocation. -/
structure WindowOracle where
  setGeomOk : Bool
  lockResult : Option ANativeWindow_Buffer
  unlockOk : Bool
deriving DecidableEq, Repr

/-- Tail of `lock(...)`: `ANativeWindow_lock` then record `mLastBuffer`. -/
def AndroidDisplaySurface.lockFinish (s : AndroidDisplaySurface)
    (o : WindowOracle) :
    AndroidDisplaySurface × Except String ANativeWindow_Buffer :=
  match o.lockResult with
  | none => (s, .error "Failed to lock window")
  | some buf => ({ s with mLastBuffer := buf }, .ok buf)

/-- `lock(out_buffer)`: with no surface return the sink buffer (success);
otherwise get the window, apply pending geometry if dirty (clearing the
flag on success, a state change that survives a later lock failure), then
lock and remember the buffer. -/
def AndroidDisplaySurface.lock (s : AndroidDisplaySurface) (o : WindowOracle) :
    AndroidDisplaySurface × Except String ANativeWindow_Buffer :=
  match s.mNativeSurface with
  | none => (s, .ok s.mSinkBuffer.mBuffer)
  | some surf =>
    if ¬ surf.hasWindow then (s, .error "Failed to get ANativeWindow")
    else if s.mNativeSurfaceNeedsConfiguring then
      match s.mRequestedSurfaceDimensions with
      | none => (s, .error "Surface dimension is not configured yet!")
      | some _dims =>
        if ¬ o.setGeomOk then (s, .error "Failed to set buffer geometry.")
        else AndroidDisplaySurface.lockFinish
          { s with mNativeSurfaceNeedsConfiguring := false } o
    else AndroidDisplaySurface.lockFinish s o

/-- `unlockAndPost()`: no surface is a silent no-op; otherwise post the
window buffer. -/
def AndroidDisplaySurface.unlockAndPost (s : AndroidDisplaySurface)
    (o : WindowOracle) : Except String Unit :=
  match s.mNativeSurface with
  | none => .ok ()
  | some surf =>
    if ¬ surf.hasWindow then .error "Failed to get ANativeWindow"
    else if ¬ o.unlockOk then .error "Failed to unlock and post window"
    else .ok ()

/-- `saveFrame()`: copy `mLastBuffer` into the saved-frame buffer. -/
def AndroidDisplaySurface.saveFrame (s : AndroidDisplaySurface) (hp : Heap) :
    Heap × Except String Unit :=
  match copyBuffer hp s.mLastBuffer s.mSavedFrameBuffer.mBuffer with
  | (hp', .error e) => (hp', .error ("Failed to copy frame: " ++ e))
  | (hp', .ok _) => (hp', .ok ())

/-- `drawSavedFrame()`: require a surface and window, apply pending
geometry if dirty, lock a fresh buffer, copy the saved frame into it,
and post it. -/
def AndroidDisplaySurface.drawSavedFrame (s : AndroidDisplaySurface)
    (hp : Heap) (o : WindowOracle) :
    AndroidDisplaySurface × Heap × Except String Unit :=
  match s.mNativeSurface with
  | none => (s, hp, .error "Surface not ready")
  | some surf =>
    if ¬ surf.hasWindow then (s, hp, .error "Failed to get ANativeWindow")
    else
      match
        (if s.mNativeSurfaceNeedsConfiguring then
          match s.mRequestedSurfaceDimensions with
          | none => .error "Surface dimension is not configured yet!"
          | some _dims =>
            if ¬ o.setGeomOk then .error "Failed to set buffer geometry."
            else .ok { s with mNativeSurfaceNeedsConfiguring := false }
        else .ok s : Except String AndroidDisplaySurface) with
      | .error e => (s, hp, .error e)
      | .ok s' =>
        match o.lockResult with
        | none => (s', hp, .error "Failed to lock window")
        | some buf =>
          match copyBuffer hp s'.mSavedFrameBuffer.mBuffer buf with
          | (hp', .error e) => (s', hp', .error ("Failed to copy frame: " ++ e))
          | (hp', .ok _) =>
            if ¬ o.unlockOk then (s', hp', .error "Failed to unlock and post window")
            else (s', hp', .ok ())

/-- Pixel bytes of row `r` of buffer `b` in heap `hp`. -/
def rowBytes (hp : Heap) (b : ANativeWindow_Buffer) (r : Nat) : List Nat :=
  readBytes (hp b.bits) (rowStart b r) (bytesOnLine b)

/-- `AndroidDisplayContext` as seen by the C-linkage API: the messages
passed to the caller-supplied error callback, in order. -/
structure AndroidDisplayContext where
  errors : List String
deriving DecidableEq, Repr

/-- `ctx->errorf(...)`: invoke the error callback with one message. -/
def AndroidDisplayContext.errorf (ctx : AndroidDisplayContext) (msg : String) :
    AndroidDisplayContext :=
  { ctx with errors := ctx.errors ++ [msg] }

/-- Result of `get_android_surface_buffer`: updated context, updated
surface (when one was passed), what was written through `out_buffer`
(`none` when nothing was written), and the returned `bool`. -/
structure GetBufferResult where
  ctx : AndroidDisplayContext
  surface : Option AndroidDisplaySurface
  out : Option ANativeWindow_Buffer
  ret : Bool
deriving DecidableEq, Repr

/-- `get_android_surface_buffer(ctx, surface, out_buffer)`:
`outBufferProvided` is whether `out_buffer` is non-null, `surface?` is
the (possibly null) surface pointer. -/
def get_android_surface_buffer (ctx : AndroidDisplayContext)
    (surface? : Option AndroidDisplaySurface) (outBufferProvided : Bool)
    (o : WindowOracle) : GetBufferResult :=
  if ¬ outBufferProvided then
    ⟨ctx.errorf "out_buffer is null", surface?, none, false⟩
  else
    match surface? with
    | none => ⟨ctx.errorf "Invalid AndroidDisplaySurface provided", none, none, false⟩
    | some s =>
      match s.lock o with
      | (s', .error e) =>
        ⟨ctx.errorf ("Failed to lock surface: " ++ e), some s', none, false⟩
      | (s', .ok buf) => ⟨ctx, some s', some buf, true⟩

/-!
Model of the `waitForNativeSurface` blocking behaviour.

`waitForNativeSurface` performs
`mNativeSurfaceReady.wait(lk, [this] { return mNativeSurface != nullptr; })`:
the thread sleeps until a wake-up (a `notify_one` from `setNativeSurface`
or `removeSurface`, or a spurious wake) finds the predicate true.  The
events visible to one blocked waiter are modelled as a transition system
over `(surface present?, waiter status)`.
-/

/-- Events a blocked `waitForNativeSurface` caller can observe. -/
inductive SurfaceEvent where
  | set
  | remove
  | spurious
deriving DecidableEq, Repr

/-- Waiter status: still inside `wait`, or returned from it. -/
inductive WaiterStatus where
  | blocked
  | done
deriving DecidableEq, Repr

/-- One event: `set` installs a surface and notifies, `remove` clears it
and notifies, `spurious` is a spurious wake.  A blocked waiter woken by
any of these re-checks the predicate `mNativeSurface != nullptr` and
returns from `wait` exactly when it holds. -/
def waiterStep : Bool × WaiterStatus → SurfaceEvent → Bool × WaiterStatus
  | (_, _), .set => (true, .done)
  | (_, w), .remove => (false, if w = .done then .done else .blocked)
  | (present, .done), .spurious => (present, .done)
  | (present, .blocked), .spurious =>
    (present, if present then .done else .blocked)

/-- Run a sequence of events against a waiter. -/
def waiterRun (st : Bool × WaiterStatus) (evs : List SurfaceEvent) :
    Bool × WaiterStatus :=
  evs.foldl waiterStep st

theorem waiterStep_set_done (st : Bool × WaiterStatus) :
    (waiterStep st .set).2 = .done := by
  rcases st with ⟨p, w⟩
  simp [waiterStep]

theorem Heap.write_same (hp : Heap) (p : Nat) (v : List Nat) :
    hp.write p v p = v := by
  simp [Heap.write]

theorem Heap.write_other (hp : Heap) (p : Nat) (v : List Nat) (q : Nat)
    (h : q ≠ p) : hp.write p v q = hp q := by
  simp [Heap.write, h]

theorem length_readBytes (l : List Nat) (off len : Nat) :
    (readBytes l off len).length = len ⊓ (l.length - off) := by
  simp [readBytes]

theorem length_readBytes_of_fits (l : List Nat) (off len : Nat)
    (h : off + len ≤ l.length) : (readBytes l off len).length = len := by
  rw [length_readBytes]
  exact inf_eq_left.mpr (by omega)

theorem length_writeBytes (l data : List Nat) (off : Nat)
    (h : off + data.length ≤ l.length) :
    (writeBytes l off data).length = l.length := by
  simp [writeBytes]
  omega

theorem readBytes_writeBytes_self (l data : List Nat) (off : Nat)
    (h : off + data.length ≤ l.length) :
    readBytes (writeBytes l off data) off data.length = data := by
  have hA : (l.take off).length = off := by simp; omega
  unfold readBytes writeBytes
  rw [List.append_assoc, List.drop_left' hA, List.take_left]

theorem readBytes_writeBytes_below (l data : List Nat) (off off' len : Nat)
    (hdisj : off' + len ≤ off) (hoff : off ≤ l.length) :
    readBytes (writeBytes l off data) off' len = readBytes l off' len := by
  have hA : (l.take off).length = off := by simp; omega
  unfold readBytes writeBytes
  rw [List.append_assoc,
      List.drop_append_of_le_length (by rw [hA]; omega),
      List.take_append_of_le_length (by rw [List.length_drop, hA]; omega),
      List.drop_take, List.take_take]
  congr 1
  exact inf_eq_left.mpr (by omega)

theorem readBytes_writeBytes_above (l data : List Nat) (off off' len : Nat)
    (hdisj : off + data.length ≤ off') (hin : off + data.length ≤ l.length) :
    readBytes (writeBytes l off data) off' len = readBytes l off' len := by
  have hA : (l.take off ++ data).length = off + data.length := by
    simp; omega
  have h1 : (writeBytes l off data).drop off' = l.drop off' := by
    unfold writeBytes
    have hsplit : off' = (l.take off ++ data).length + (off' - (off + data.length)) := by
      rw [hA]; omega
    conv_lhs => rw [hsplit]
    rw [List.drop_append, List.drop_drop]
    congr 1
    omega
  unfold readBytes
  rw [h1]

theorem int_mul_toNat (r : Nat) (s : Int) (hs : 0 ≤ s) :
    ((r : Int) * s).toNat = r * s.toNat := by
  rcases Int.eq_ofNat_of_zero_le hs with ⟨k, rfl⟩
  norm_cast

theorem rowStart_nonneg (b : ANativeWindow_Buffer) (r : Nat)
    (hs : 0 ≤ b.stride) : rowStart b r = 4 * (r * b.stride.toNat) := by
  rw [rowStart, int_mul_toNat r b.stride hs]

theorem bytesOnLine_le (b : ANativeWindow_Buffer) (s : Int)
    (hw : b.width ≤ s) (hs : 0 ≤ s) : bytesOnLine b ≤ 4 * s.toNat := by
  rw [bytesOnLine]
  omega

theorem copyRowsAux_other (src dst : ANativeWindow_Buffer) (hp : Heap)
    (n : Nat) (p : Nat) (h : p ≠ dst.bits) :
    copyRowsAux src dst hp n p = hp p := by
  induction n with
  | zero => rfl
  | succ n ih => simp [copyRowsAux, copyRow, Heap.write, h, ih]

theorem copyRowsAux_length (src dst : ANativeWindow_Buffer) (hp : Heap)
    (n : Nat)
    (hfit : ∀ r, r < n → rowStart dst r + bytesOnLine dst ≤ (hp dst.bits).length) :
    ((copyRowsAux src dst hp n) dst.bits).length = (hp dst.bits).length := by
  induction n with
  | zero => rfl
  | succ n ih =>
    have ih' := ih (fun r hr => hfit r (by omega))
    have hdata : (readBytes ((copyRowsAux src dst hp n) src.bits)
        (rowStart src n) (bytesOnLine dst)).length ≤ bytesOnLine dst := by
      rw [length_readBytes]
      omega
    simp only [copyRowsAux, copyRow, Heap.write_same]
    rw [length_writeBytes _ _ _ (by rw [ih']; have := hfit n (by omega); omega),
        ih']


theorem copyRowsAux_rowBytes (src dst : ANativeWindow_Buffer) (hp : Heap)
    (n : Nat) (hptr : src.bits ≠ dst.bits)
    (hsrc : ∀ r, r < n → rowStart src r + bytesOnLine dst ≤ (hp src.bits).length)
    (hdst : ∀ r, r < n → rowStart dst r + bytesOnLine dst ≤ (hp dst.bits).length)
    (hsep : ∀ r r', r < r' → r' < n →
      rowStart dst r + bytesOnLine dst ≤ rowStart dst r') :
    ∀ r, r < n →
      readBytes (copyRowsAux src dst hp n dst.bits) (rowStart dst r) (bytesOnLine dst)
        = readBytes (hp src.bits) (rowStart src r) (bytesOnLine dst) := by
  induction n with
  | zero => intro r hr; omega
  | succ n ih =>
    intro r hr
    have hlen : ((copyRowsAux src dst hp n) dst.bits).length = (hp dst.bits).length :=
      copyRowsAux_length src dst hp n (fun r hr => hdst r (by omega))
    have hsrcEq : (copyRowsAux src dst hp n) src.bits = hp src.bits :=
      copyRowsAux_other src dst hp n src.bits hptr
    have hdataLen : (readBytes (hp src.bits) (rowStart src n) (bytesOnLine dst)).length
        = bytesOnLine dst :=
      length_readBytes_of_fits _ _ _ (hsrc n (by omega))
    simp only [copyRowsAux, copyRow, Heap.write_same, hsrcEq]
    rcases Nat.lt_succ_iff_lt_or_eq.mp hr with hr' | hr'
    · -- a row already written; the later write of row `n` is disjoint (above it)
      have hn := hsep r n hr' (by omega)
      rw [readBytes_writeBytes_below _ _ _ _ _ (by omega)
          (by rw [hlen]; have := hdst n (by omega); omega)]
      exact ih (fun r hr => hsrc r (by omega)) (fun r hr => hdst r (by omega))
        (fun r r' h1 h2 => hsep r r' h1 (by omega)) r hr'
    · subst hr'
      have hself := readBytes_writeBytes_self (copyRowsAux src dst hp r dst.bits)
        (readBytes (hp src.bits) (rowStart src r) (bytesOnLine dst)) (rowStart dst r)
        (by rw [hdataLen, hlen]; exact hdst r (by omega))
      rw [hdataLen] at hself
      exact hself

theorem copyBuffer_rowBytes (hp hp' : Heap) (src dst : ANativeWindow_Buffer)
    (hok : copyBuffer hp src dst = (hp', .ok ()))
    (hptr : src.bits ≠ dst.bits)
    (hss : 0 ≤ src.stride) (hds : 0 ≤ dst.stride)
    (hws : dst.width ≤ src.stride) (hwd : dst.width ≤ dst.stride)
    (hslen : 4 * dst.height.toNat * src.stride.toNat ≤ (hp src.bits).length)
    (hdlen : 4 * dst.height.toNat * dst.stride.toNat ≤ (hp dst.bits).length) :
    ∀ r, r < dst.height.toNat → rowBytes hp' dst r = rowBytes hp src r := by
  unfold copyBuffer at hok
  split at hok
  · simp at hok
  case isFalse hcond =>
    have hw : src.width = dst.width := by
      by_contra h
      exact hcond (Or.inl h)
    have hBd := bytesOnLine_le dst dst.stride hwd hds
    have hBs := bytesOnLine_le dst src.stride hws hss
    have hp'eq : hp' = copyRowsAux src dst hp dst.height.toNat := by
      have := congrArg Prod.fst hok
      simpa using this.symm
    have hsrc : ∀ r, r < dst.height.toNat →
        rowStart src r + bytesOnLine dst ≤ (hp src.bits).length := by
      intro r hr
      rw [rowStart_nonneg src r hss]
      have hmul : (r + 1) * src.stride.toNat ≤ dst.height.toNat * src.stride.toNat :=
        Nat.mul_le_mul (by omega) le_rfl
      calc 4 * (r * src.stride.toNat) + bytesOnLine dst
          ≤ 4 * (r * src.stride.toNat) + 4 * src.stride.toNat := by omega
        _ = 4 * ((r + 1) * src.stride.toNat) := by ring
        _ ≤ 4 * (dst.height.toNat * src.stride.toNat) := Nat.mul_le_mul le_rfl hmul
        _ = 4 * dst.height.toNat * src.stride.toNat := by ring
        _ ≤ (hp src.bits).length := hslen
    have hdst : ∀ r, r < dst.height.toNat →
        rowStart dst r + bytesOnLine dst ≤ (hp dst.bits).length := by
      intro r hr
      rw [rowStart_nonneg dst r hds]
      have hmul : (r + 1) * dst.stride.toNat ≤ dst.height.toNat * dst.stride.toNat :=
        Nat.mul_le_mul (by omega) le_rfl
      calc 4 * (r * dst.stride.toNat) + bytesOnLine dst
          ≤ 4 * (r * dst.stride.toNat) + 4 * dst.stride.toNat := by omega
        _ = 4 * ((r + 1) * dst.stride.toNat) := by ring
        _ ≤ 4 * (dst.height.toNat * dst.stride.toNat) := Nat.mul_le_mul le_rfl hmul
        _ = 4 * dst.height.toNat * dst.stride.toNat := by ring
        _ ≤ (hp dst.bits).length := hdlen
    have hsep : ∀ r r', r < r' → r' < dst.height.toNat →
        rowStart dst r + bytesOnLine dst ≤ rowStart dst r' := by
      intro r r' h1 h2
      rw [rowStart_nonneg dst r hds, rowStart_nonneg dst r' hds]
      have hmul : (r + 1) * dst.stride.toNat ≤ r' * dst.stride.toNat :=
        Nat.mul_le_mul (by omega) le_rfl
      calc 4 * (r * dst.stride.toNat) + bytesOnLine dst
          ≤ 4 * (r * dst.stride.toNat) + 4 * dst.stride.toNat := by omega
        _ = 4 * ((r + 1) * dst.stride.toNat) := by ring
        _ ≤ 4 * (r' * dst.stride.toNat) := Nat.mul_le_mul le_rfl hmul
    intro r hr
    have hmain := copyRowsAux_rowBytes src dst hp dst.height.toNat hptr
      hsrc hdst hsep r hr
    rw [rowBytes, rowBytes, hp'eq, hmain, bytesOnLine, bytesOnLine, hw]

/-- C6: for every requested pixel format other than `HAL_PIXEL_FORMAT_BGRA_8888`,
`SinkANativeWindow_Buffer::configure` returns an error and leaves the buffer
view, its dimensions and its byte storage unchanged. -/
theorem C6_configure_rejects_non_bgra (b : SinkANativeWindow_Buffer) (hp : Heap)
    (w h : Nat) (format : Int) (hfmt : format ≠ kFormat) :
    b.configure hp w h format =
      (b, hp, .error ("Pixel format " ++ toString format ++ " is not BGRA_8888.")) := by
  unfold SinkANativeWindow_Buffer.configure
  rw [if_pos hfmt]

/-- C6 witness: format `HAL_PIXEL_FORMAT_RGBA_8888` (1) is rejected and the
buffer is untouched. -/
theorem C6_witness :
    (1 : Int) ≠ kFormat ∧
    SinkANativeWindow_Buffer.configure ⟨⟨0, 0, 0, 0, 99⟩, 0⟩ (fun _ => []) 2 2 1 =
      (⟨⟨0, 0, 0, 0, 99⟩, 0⟩, (fun _ => []),
        .error "Pixel format 1 is not BGRA_8888.") :=
  ⟨by decide, C6_configure_rejects_non_bgra ⟨⟨0, 0, 0, 0, 99⟩, 0⟩ (fun _ => []) 2 2 1 (by decide)⟩

/-- C7: `copyBuffer` with mismatched width or height returns an error and
leaves all memory, in particular the destination buffer's content,
unmodified. -/
theorem C7_copyBuffer_mismatch (hp : Heap) (src dst : ANativeWindow_Buffer)
    (hmm : src.width ≠ dst.width ∨ src.height ≠ dst.height) :
    ∃ e, copyBuffer hp src dst = (hp, .error e) := by
  unfold copyBuffer
  rw [if_pos hmm]
  exact ⟨_, rfl⟩

/-- C7 witness: copying a 1x1 buffer into a 2x1 buffer fails with the heap
unchanged. -/
theorem C7_witness :
    ((1 : Int) ≠ 2 ∨ (1 : Int) ≠ 1) ∧
    ∃ e, copyBuffer (fun _ => [7, 7, 7, 7]) ⟨1, 1, 1, 5, 0⟩ ⟨2, 1, 2, 5, 1⟩ =
      ((fun _ => [7, 7, 7, 7]), .error e) :=
  ⟨Or.inl (by decide),
    C7_copyBuffer_mismatch (fun _ => [7, 7, 7, 7]) ⟨1, 1, 1, 5, 0⟩ ⟨2, 1, 2, 5, 1⟩
      (Or.inl (by decide))⟩

/-- C8: `drawSavedFrame` on an instance with no installed target (in
particular right after `removeSurface`) returns the error "Surface not
ready" and leaves the whole instance state (sink, saved-frame and last
buffers included) and all pixel memory unchanged. -/
theorem C8_drawSavedFrame_no_surface (s : AndroidDisplaySurface) (hp : Heap)
    (o : WindowOracle) (h : s.mNativeSurface = none) :
    s.drawSavedFrame hp o = (s, hp, .error "Surface not ready") ∧
    (∀ t : AndroidDisplaySurface,
      t.removeSurface.drawSavedFrame hp o =
        (t.removeSurface, hp, .error "Surface not ready")) := by
  constructor
  · unfold AndroidDisplaySurface.drawSavedFrame
    rw [h]
  · intro t
    unfold AndroidDisplaySurface.drawSavedFrame AndroidDisplaySurface.removeSurface
    rfl

/-- C8 witness: a fresh instance rejects `drawSavedFrame` without touching
anything. -/
theorem C8_witness :
    (AndroidDisplaySurface.init 0 1 ⟨0, 0, 0, 0, 99⟩ ⟨0, 0, 0, 0, 99⟩
        ⟨0, 0, 0, 0, 99⟩).drawSavedFrame (fun _ => []) ⟨true, none, true⟩ =
      (AndroidDisplaySurface.init 0 1 ⟨0, 0, 0, 0, 99⟩ ⟨0, 0, 0, 0, 99⟩
        ⟨0, 0, 0, 0, 99⟩, (fun _ => []), .error "Surface not ready") :=
  (C8_drawSavedFrame_no_surface _ (fun _ => []) ⟨true, none, true⟩ rfl).1

/-- C10: `get_android_surface_buffer` with a null `out_buffer` or a null
surface pointer returns `false`, invokes the error callback exactly once,
and modifies neither the surface state nor any buffer. -/
theorem C10_get_buffer_null_args (ctx : AndroidDisplayContext)
    (surface? : Option AndroidDisplaySurface) (provided : Bool)
    (o : WindowOracle) (h : provided = false ∨ surface? = none) :
    ∃ msg, get_android_surface_buffer ctx surface? provided o =
        ⟨ctx.errorf msg, surface?, none, false⟩ ∧
      (ctx.errorf msg).errors = ctx.errors ++ [msg] := by
  rcases h with h | h
  · subst h
    exact ⟨"out_buffer is null", rfl, rfl⟩
  · subst h
    cases provided
    · exact ⟨"out_buffer is null", rfl, rfl⟩
    · exact ⟨"Invalid AndroidDisplaySurface provided", rfl, rfl⟩

/-- C10 witness: a null surface pointer makes the call fail with one error
callback and no state change. -/
theorem C10_witness :
    ((true : Bool) = false ∨ (none : Option AndroidDisplaySurface) = none) ∧
    ∃ msg, get_android_surface_buffer ⟨[]⟩ none true ⟨true, none, true⟩ =
        ⟨AndroidDisplayContext.errorf ⟨[]⟩ msg, none, none, false⟩ ∧
      (AndroidDisplayContext.errorf ⟨[]⟩ msg).errors = ([] : List String) ++ [msg] :=
  ⟨Or.inr rfl, C10_get_buffer_null_args ⟨[]⟩ none true ⟨true, none, true⟩ (Or.inr rfl)⟩

theorem waiterRun_done (st : Bool × WaiterStatus) (evs : List SurfaceEvent)
    (h : st.2 = .done) : (waiterRun st evs).2 = .done := by
  induction evs generalizing st with
  | nil => exact h
  | cons e t ih =>
    rcases st with ⟨p, w⟩
    cases w
    · cases h
    · cases e
      · exact ih _ rfl
      · exact ih _ (by simp [waiterStep])
      · exact ih _ rfl

theorem waiterRun_no_set (evs : List SurfaceEvent) (h : SurfaceEvent.set ∉ evs) :
    waiterRun (false, .blocked) evs = (false, .blocked) := by
  induction evs with
  | nil => rfl
  | cons e t ih =>
    cases e
    · exact absurd (List.mem_cons_self _ _) h
    · have ht : SurfaceEvent.set ∉ t := fun hm => h (List.mem_cons_of_mem _ hm)
      calc waiterRun (false, .blocked) (.remove :: t)
          = waiterRun (false, .blocked) t := by simp [waiterRun, waiterStep]
        _ = (false, .blocked) := ih ht
    · have ht : SurfaceEvent.set ∉ t := fun hm => h (List.mem_cons_of_mem _ hm)
      calc waiterRun (false, .blocked) (.spurious :: t)
          = waiterRun (false, .blocked) t := by simp [waiterRun, waiterStep]
        _ = (false, .blocked) := ih ht

/-- C9: a waiter that called `waitForNativeSurface` while no surface was
installed returns from the wait exactly when some `setNativeSurface`
event occurs; wake-ups from `removeSurface` (and spurious wake-ups) make
it re-check the predicate and keep blocking while no target is present. -/
theorem C9_wait_unblocks_iff_set (evs : List SurfaceEvent) :
    (waiterRun (false, .blocked) evs).2 = .done ↔ SurfaceEvent.set ∈ evs := by
  constructor
  · intro hdone
    by_contra hmem
    rw [waiterRun_no_set evs hmem] at hdone
    cases hdone
  · intro hmem
    induction evs with
    | nil => cases hmem
    | cons e t ih =>
      rcases List.mem_cons.mp hmem with he | ht
      · subst he
        exact waiterRun_done _ t (by simp [waiterStep])
      · cases e
        · exact waiterRun_done _ t (by simp [waiterStep])
        · have : waiterRun (false, .blocked) (.remove :: t)
              = waiterRun (false, .blocked) t := by simp [waiterRun, waiterStep]
          rw [this]
          exact ih ht
        · have : waiterRun (false, .blocked) (.spurious :: t)
              = waiterRun (false, .blocked) t := by simp [waiterRun, waiterStep]
          rw [this]
          exact ih ht

theorem listResize_length (l : List Nat) (n : Nat) :
    (listResize l n).length = n := by
  simp [listResize]
  omega

theorem int32ofUInt32_small (n : Nat) (h : n < 2 ^ 31) :
    int32ofUInt32 n = (n : Int) := by
  unfold int32ofUInt32
  rw [Nat.mod_eq_of_lt (by omega)]
  rw [if_pos (by omega)]

/-- The `ANativeWindow_Buffer` view produced by a successful
`SinkANativeWindow_Buffer::configure(w, h, kFormat)` whose storage is at `p`. -/
def configuredBuffer (w h : Nat) (p : Nat) : ANativeWindow_Buffer :=
  ⟨int32ofUInt32 w, int32ofUInt32 h, int32ofUInt32 w, kFormat, p⟩

/-- The heap after `configure(w, h)` resized the two owned byte vectors. -/
def configuredHeap (hp : Heap) (sinkPtr savedPtr : Nat) (w h : Nat) : Heap :=
  let hp1 := hp.write sinkPtr (listResize (hp sinkPtr) (w * h * 4 % 2 ^ 32))
  hp1.write savedPtr (listResize (hp1 savedPtr) (w * h * 4 % 2 ^ 32))

theorem configure_unfold (s : AndroidDisplaySurface) (hp : Heap) (w h : Nat) :
    s.configure hp w h =
      ({ s with
          mRequestedSurfaceDimensions := some ⟨w, h⟩
          mSinkBuffer := ⟨configuredBuffer w h s.mSinkBuffer.storagePtr,
            s.mSinkBuffer.storagePtr⟩
          mSavedFrameBuffer := ⟨configuredBuffer w h s.mSavedFrameBuffer.storagePtr,
            s.mSavedFrameBuffer.storagePtr⟩ },
        configuredHeap hp s.mSinkBuffer.storagePtr s.mSavedFrameBuffer.storagePtr w h,
        .ok ()) := rfl

theorem lock_none (s : AndroidDisplaySurface) (o : WindowOracle)
    (h : s.mNativeSurface = none) :
    s.lock o = (s, .ok s.mSinkBuffer.mBuffer) := by
  unfold AndroidDisplaySurface.lock
  rw [h]

theorem configuredHeap_sink_length (hp : Heap) (p q w h : Nat) :
    (configuredHeap hp p q w h p).length = w * h * 4 % 2 ^ 32 := by
  unfold configuredHeap Heap.write
  by_cases hpq : p = q
  · simp [hpq, listResize_length]
  · simp [hpq, listResize_length]

theorem configuredHeap_saved_length (hp : Heap) (p q w h : Nat) :
    (configuredHeap hp p q w h q).length = w * h * 4 % 2 ^ 32 := by
  unfold configuredHeap Heap.write
  simp [listResize_length]

/-- C2 (amended): for `W, H > 0` with `W * H * 4 < 2^32` (the `uint32_t`
product does not wrap), `configure(W, H)` succeeds and a `lock()` on an
instance with no target attached succeeds without blocking, returning the
sink buffer with width `W`, height `H`, stride `W` and exactly `W * H * 4`
bytes of storage; `removeSurface` always leaves the slot empty, so the
same holds immediately after it. -/
theorem C2_configure_lock_sink (s : AndroidDisplaySurface) (hp : Heap)
    (o : WindowOracle) (W H : Nat)
    (hW : 0 < W) (hH : 0 < H) (hsz : W * H * 4 < 2 ^ 32)
    (hns : s.mNativeSurface = none) :
    ∃ s' hp', s.configure hp W H = (s', hp', .ok ()) ∧
      s'.lock o = (s', .ok s'.mSinkBuffer.mBuffer) ∧
      s'.mSinkBuffer.mBuffer.width = (W : Int) ∧
      s'.mSinkBuffer.mBuffer.height = (H : Int) ∧
      s'.mSinkBuffer.mBuffer.stride = (W : Int) ∧
      (hp' s'.mSinkBuffer.mBuffer.bits).length = W * H * 4 ∧
      (∀ t : AndroidDisplaySurface, t.removeSurface.mNativeSurface = none) := by
  have hWH : W ≤ W * H := Nat.le_mul_of_pos_right W hH
  have hHW : H ≤ W * H := Nat.le_mul_of_pos_left H hW
  have hW31 : W < 2 ^ 31 := by omega
  have hH31 : H < 2 ^ 31 := by omega
  have hmod : W * H * 4 % 2 ^ 32 = W * H * 4 := Nat.mod_eq_of_lt hsz
  refine ⟨_, _, configure_unfold s hp W H, ?_, ?_, ?_, ?_, ?_, fun t => rfl⟩
  · exact lock_none _ o hns
  · simp [configuredBuffer, int32ofUInt32_small W hW31]
  · simp [configuredBuffer, int32ofUInt32_small H hH31]
  · simp [configuredBuffer, int32ofUInt32_small W hW31]
  · show (configuredHeap hp _ _ W H (configuredBuffer W H _).bits).length = W * H * 4
    rw [show (configuredBuffer W H s.mSinkBuffer.storagePtr).bits
        = s.mSinkBuffer.storagePtr from rfl]
    rw [configuredHeap_sink_length, hmod]

/-- An indeterminate garbage buffer view used as the initial value of the
POD members in concrete runs. -/
def garbageBuf : ANativeWindow_Buffer := ⟨0, 0, 0, 0, 99⟩

/-- A fresh instance with sink storage at pointer 0 and saved-frame storage
at pointer 1. -/
def freshSurface : AndroidDisplaySurface :=
  AndroidDisplaySurface.init 0 1 garbageBuf garbageBuf garbageBuf

/-- The empty heap. -/
def emptyHeap : Heap := fun _ => []

/-- C2 counterexample: at `W = 2^30, H = 1` (so `W * H * 4 = 2^32` wraps to
0 in `uint32_t`), `configure` succeeds and `lock` returns the sink buffer,
but its storage is 0 bytes rather than the claimed `W * H * 4` bytes. -/
theorem C2_counterexample :
    ((freshSurface.configure emptyHeap (2 ^ 30) 1).2.2 = .ok ()) ∧
    (((freshSurface.configure emptyHeap (2 ^ 30) 1).1.lock ⟨true, none, true⟩).2
      = .ok (freshSurface.configure emptyHeap (2 ^ 30) 1).1.mSinkBuffer.mBuffer) ∧
    ((freshSurface.configure emptyHeap (2 ^ 30) 1).2.1
        (freshSurface.configure emptyHeap (2 ^ 30) 1).1.mSinkBuffer.mBuffer.bits).length
      = 0 ∧
    (0 : Nat) ≠ 2 ^ 30 * 1 * 4 := by
  refine ⟨rfl, rfl, ?_, by decide⟩
  rw [configure_unfold]
  show (configuredHeap _ 0 1 (2 ^ 30) 1 (configuredBuffer (2 ^ 30) 1 0).bits).length = 0
  rw [show (configuredBuffer (2 ^ 30) 1 0).bits = 0 from rfl,
    configuredHeap_sink_length]
  decide

/-- C2 witness: the amended claim instantiated at `W = 2`, `H = 3` on a
fresh instance. -/
theorem C2_witness :
    ((0 : Nat) < 2 ∧ (0 : Nat) < 3 ∧ 2 * 3 * 4 < 2 ^ 32 ∧
      freshSurface.mNativeSurface = none) ∧
    (∃ s' hp', freshSurface.configure emptyHeap 2 3 = (s', hp', .ok ()) ∧
      s'.lock ⟨true, none, true⟩ = (s', .ok s'.mSinkBuffer.mBuffer) ∧
      s'.mSinkBuffer.mBuffer.width = ((2 : Nat) : Int) ∧
      s'.mSinkBuffer.mBuffer.height = ((3 : Nat) : Int) ∧
      s'.mSinkBuffer.mBuffer.stride = ((2 : Nat) : Int) ∧
      (hp' s'.mSinkBuffer.mBuffer.bits).length = 2 * 3 * 4 ∧
      (∀ t : AndroidDisplaySurface, t.removeSurface.mNativeSurface = none)) :=
  ⟨⟨by decide, by decide, by decide, rfl⟩,
    C2_configure_lock_sink freshSurface emptyHeap ⟨true, none, true⟩ 2 3
      (by decide) (by decide) (by decide) rfl⟩

/-- C3 (amended): every call to `configure(w, h)` succeeds, records the
requested dimensions and rebuilds both the sink and saved-frame buffers at
the new geometry, but it leaves `mNativeSurfaceNeedsConfiguring` (and the
installed target) unchanged: the flag is set only at construction and by
`setNativeSurface`, so a later `lock()` re-applies geometry to the target
only if the flag was already set. -/
theorem C3_configure_state (s : AndroidDisplaySurface) (hp : Heap) (w h : Nat) :
    (s.configure hp w h).2.2 = .ok () ∧
    (s.configure hp w h).1.mRequestedSurfaceDimensions = some ⟨w, h⟩ ∧
    (s.configure hp w h).1.mSinkBuffer =
      ⟨configuredBuffer w h s.mSinkBuffer.storagePtr, s.mSinkBuffer.storagePtr⟩ ∧
    (s.configure hp w h).1.mSavedFrameBuffer =
      ⟨configuredBuffer w h s.mSavedFrameBuffer.storagePtr,
        s.mSavedFrameBuffer.storagePtr⟩ ∧
    ((s.configure hp w h).2.1 s.mSinkBuffer.storagePtr).length
      = w * h * 4 % 2 ^ 32 ∧
    ((s.configure hp w h).2.1 s.mSavedFrameBuffer.storagePtr).length
      = w * h * 4 % 2 ^ 32 ∧
    (s.configure hp w h).1.mNativeSurfaceNeedsConfiguring
      = s.mNativeSurfaceNeedsConfiguring ∧
    (s.configure hp w h).1.mNativeSurface = s.mNativeSurface := by
  rw [configure_unfold]
  exact ⟨rfl, rfl, rfl, rfl, configuredHeap_sink_length hp _ _ w h,
    configuredHeap_saved_length hp _ _ w h, rfl, rfl⟩

/-- State reached by: fresh instance, `setSurface`, `configure(2,2)`, then a
successful `lock` (which clears the needs-configuring flag). -/
def c3LockedState : AndroidDisplaySurface :=
  ((((freshSurface.setNativeSurface ⟨true⟩).configure emptyHeap 2 2).1).lock
    ⟨true, some ⟨2, 2, 2, 5, 7⟩, true⟩).1

/-- C3 counterexample: after a successful lock, a further successful
`configure(4, 4)` leaves the needs-configuring flag `false` (the claim says
it is set), and the next `lock` succeeds even though the window rejects any
geometry change (`setGeomOk = false`), i.e. geometry is not re-applied. -/
theorem C3_counterexample :
    ((c3LockedState.configure emptyHeap 4 4).2.2 = .ok ()) ∧
    ((c3LockedState.configure emptyHeap 4 4).1.mNativeSurfaceNeedsConfiguring
      = false) ∧
    (((c3LockedState.configure emptyHeap 4 4).1.lock
        ⟨false, some ⟨4, 4, 4, 5, 8⟩, true⟩).2 = .ok ⟨4, 4, 4, 5, 8⟩) := by
  exact ⟨rfl, rfl, rfl⟩

theorem lock_some_records (s : AndroidDisplaySurface) (o : WindowOracle)
    (surf : NativeSurface) (buf : ANativeWindow_Buffer)
    (h : s.mNativeSurface = some surf) (hok : (s.lock o).2 = .ok buf) :
    (s.lock o).1.mLastBuffer = buf := by
  obtain ⟨ns, flag, sink, last, saved, dims⟩ := s
  obtain ⟨hw⟩ := surf
  obtain ⟨geom, lr, unlock⟩ := o
  dsimp only at h
  subst h
  cases hw <;> cases flag <;> cases dims <;> cases geom <;> cases lr <;>
    simp [AndroidDisplaySurface.lock, AndroidDisplaySurface.lockFinish] at hok ⊢ <;>
    exact hok

/-- C4 (amended): when a target is present, a successful `lock()` records
the locked buffer as `mLastBuffer` (and `saveFrame` copies exactly
`mLastBuffer` into the saved-frame buffer); but in the sink fallback path
(no target), `lock()` succeeds returning the sink buffer WITHOUT updating
`mLastBuffer` — the instance state is unchanged. -/
theorem C4_lock_records_last_buffer (s : AndroidDisplaySurface)
    (o : WindowOracle) :
    (s.mNativeSurface = none → s.lock o = (s, .ok s.mSinkBuffer.mBuffer)) ∧
    (∀ surf buf, s.mNativeSurface = some surf → (s.lock o).2 = .ok buf →
      (s.lock o).1.mLastBuffer = buf) ∧
    (∀ (s' : AndroidDisplaySurface) (hp : Heap),
      (s'.saveFrame hp).1
        = (copyBuffer hp s'.mLastBuffer s'.mSavedFrameBuffer.mBuffer).1 ∧
      ((s'.saveFrame hp).2 = .ok () ↔
        (copyBuffer hp s'.mLastBuffer s'.mSavedFrameBuffer.mBuffer).2 = .ok ())) := by
  refine ⟨fun h => lock_none s o h,
    fun surf buf hsome hok => lock_some_records s o surf buf hsome hok,
    fun s' hp => ?_⟩
  unfold AndroidDisplaySurface.saveFrame
  rcases hcb : copyBuffer hp s'.mLastBuffer s'.mSavedFrameBuffer.mBuffer with ⟨hp', r⟩
  cases r
  · simp
  · simp

/-- Instance with a target installed and `configure(1, 1)` done, ready for a
successful window lock. -/
def c4State : AndroidDisplaySurface :=
  ((freshSurface.setNativeSurface ⟨true⟩).configure emptyHeap 1 1).1

/-- C4 witness: with a target present, a successful lock records the window
buffer as the last buffer. -/
theorem C4_witness :
    (c4State.lock ⟨true, some ⟨1, 1, 1, 5, 9⟩, true⟩).2 = .ok ⟨1, 1, 1, 5, 9⟩ ∧
    (c4State.lock ⟨true, some ⟨1, 1, 1, 5, 9⟩, true⟩).1.mLastBuffer
      = ⟨1, 1, 1, 5, 9⟩ :=
  ⟨rfl, (C4_lock_records_last_buffer c4State ⟨true, some ⟨1, 1, 1, 5, 9⟩, true⟩).2.1
    ⟨true⟩ ⟨1, 1, 1, 5, 9⟩ rfl rfl⟩

/-- C4 counterexample: with no target attached, `lock()` succeeds and
returns the sink buffer, but `mLastBuffer` is NOT updated to the returned
buffer (the claim demands it is in this path too). -/
theorem C4_counterexample :
    (((freshSurface.configure emptyHeap 1 1).1.lock ⟨true, none, true⟩).2
      = .ok (freshSurface.configure emptyHeap 1 1).1.mSinkBuffer.mBuffer) ∧
    ((freshSurface.configure emptyHeap 1 1).1.lock ⟨true, none, true⟩).1.mLastBuffer
      ≠ (freshSurface.configure emptyHeap 1 1).1.mSinkBuffer.mBuffer :=
  ⟨rfl, by decide⟩

/-- C5 (amended): on an instance on which `configure` has never been called
(no dimensions are recorded, and hence the needs-configuring flag is still
set), `lock()` returns an error when a target is attached; with no target
attached it succeeds, returning the (unconfigured) sink buffer. -/
theorem C5_lock_unconfigured (s : AndroidDisplaySurface) (o : WindowOracle)
    (hdim : s.mRequestedSurfaceDimensions = none)
    (hflag : s.mNativeSurfaceNeedsConfiguring = true) :
    (s.mNativeSurface = none → s.lock o = (s, .ok s.mSinkBuffer.mBuffer)) ∧
    (∀ surf, s.mNativeSurface = some surf → ∃ e, (s.lock o).2 = .error e) := by
  refine ⟨fun h => lock_none s o h, fun surf hsome => ?_⟩
  unfold AndroidDisplaySurface.lock
  rw [hsome]
  cases hw : surf.hasWindow
  · simp [hw]
  · simp [hw, hflag, hdim]

/-- C5 witness: a fresh instance with a target installed but never
configured rejects `lock()`. -/
theorem C5_witness :
    ((freshSurface.setNativeSurface ⟨true⟩).mRequestedSurfaceDimensions = none ∧
      (freshSurface.setNativeSurface ⟨true⟩).mNativeSurfaceNeedsConfiguring = true) ∧
    ∃ e, ((freshSurface.setNativeSurface ⟨true⟩).lock
      ⟨true, some garbageBuf, true⟩).2 = .error e :=
  ⟨⟨rfl, rfl⟩,
    (C5_lock_unconfigured (freshSurface.setNativeSurface ⟨true⟩)
      ⟨true, some garbageBuf, true⟩ rfl rfl).2 ⟨true⟩ rfl⟩

/-- C5 counterexample: on a fresh, never-configured instance with no target
attached, `lock()` succeeds (the claim says every `lock()` before
`configure` errors regardless of target presence). -/
theorem C5_counterexample :
    freshSurface.mRequestedSurfaceDimensions = none ∧
    (freshSurface.lock ⟨true, none, true⟩).2
      = .ok freshSurface.mSinkBuffer.mBuffer :=
  ⟨rfl, rfl⟩

theorem drawSavedFrame_copy (s : AndroidDisplaySurface) (hp : Heap)
    (o : WindowOracle) (s' : AndroidDisplaySurface) (hp' : Heap)
    (bufT : ANativeWindow_Buffer) (hlr : o.lockResult = some bufT)
    (hdraw : s.drawSavedFrame hp o = (s', hp', .ok ())) :
    copyBuffer hp s.mSavedFrameBuffer.mBuffer bufT = (hp', .ok ()) ∧
    s'.mSavedFrameBuffer = s.mSavedFrameBuffer := by
  obtain ⟨ns, flag, sink, last, saved, dims⟩ := s
  obtain ⟨geom, lr, unlock⟩ := o
  dsimp only at hlr ⊢
  subst hlr
  rcases hcb : copyBuffer hp saved.mBuffer bufT with ⟨hpc, rc⟩
  cases ns with
  | none => simp [AndroidDisplaySurface.drawSavedFrame] at hdraw
  | some surf =>
    obtain ⟨hw⟩ := surf
    cases rc with
    | error e =>
      cases hw <;> cases flag <;> cases dims <;> cases geom <;> cases unlock <;>
        simp [AndroidDisplaySurface.drawSavedFrame, hcb] at hdraw
    | ok u =>
      cases u
      cases hw <;> cases flag <;> cases dims <;> cases geom <;> cases unlock <;>
        simp [AndroidDisplaySurface.drawSavedFrame, hcb] at hdraw <;>
        (obtain ⟨h1, h2⟩ := hdraw; subst h2; subst h1; exact ⟨rfl, rfl⟩)

/-- C1: after a successful `lock()`, `unlockAndPost()`, and `saveFrame()`,
installing a target `T` with `setSurface(T)` and then succeeding at
`drawSavedFrame()` writes into the buffer locked on `T` exactly the rows
the saved-frame buffer held right after `saveFrame()` — independent of the
oracle (i.e. of whatever a `lock()` would return at that later moment).
Side conditions state that the platform buffer `bufT` returned by `T`'s
window is well-formed (non-negative stride at least the pixel width, no
aliasing with the saved-frame storage) and that both allocations are large
enough for their rows, as real window/vector allocations are. -/
theorem C1_draw_saved_frame_reproduces
    (s0 s1 s5 : AndroidDisplaySurface) (hp1 hp2 hp3 : Heap)
    (o1 o2 o5 : WindowOracle) (T : NativeSurface)
    (buf1 bufT : ANativeWindow_Buffer)
    (hlock : s0.lock o1 = (s1, .ok buf1))
    (hpost : s1.unlockAndPost o2 = .ok ())
    (hsave : s1.saveFrame hp1 = (hp2, .ok ()))
    (hdraw : (s1.setNativeSurface T).drawSavedFrame hp2 o5 = (s5, hp3, .ok ()))
    (hlr : o5.lockResult = some bufT)
    (hptr : s1.mSavedFrameBuffer.mBuffer.bits ≠ bufT.bits)
    (hss : 0 ≤ s1.mSavedFrameBuffer.mBuffer.stride)
    (hds : 0 ≤ bufT.stride)
    (hws : bufT.width ≤ s1.mSavedFrameBuffer.mBuffer.stride)
    (hwd : bufT.width ≤ bufT.stride)
    (hslen : 4 * bufT.height.toNat * s1.mSavedFrameBuffer.mBuffer.stride.toNat
      ≤ (hp2 s1.mSavedFrameBuffer.mBuffer.bits).length)
    (hdlen : 4 * bufT.height.toNat * bufT.stride.toNat ≤ (hp2 bufT.bits).length) :
    ∀ r, r < bufT.height.toNat →
      rowBytes hp3 bufT r = rowBytes hp2 s1.mSavedFrameBuffer.mBuffer r := by
  have hsaved : (s1.setNativeSurface T).mSavedFrameBuffer = s1.mSavedFrameBuffer := rfl
  obtain ⟨hcb, -⟩ :=
    drawSavedFrame_copy (s1.setNativeSurface T) hp2 o5 s5 hp3 bufT hlr hdraw
  rw [hsaved] at hcb
  exact copyBuffer_rowBytes hp2 hp3 s1.mSavedFrameBuffer.mBuffer bufT hcb hptr
    hss hds hws hwd hslen hdlen

/-- Concrete 1x1 instance for the C1 run: sink storage at 0, saved-frame
storage at 1, last-locked window buffer at 2, configured 1x1. -/
def c1S0 : AndroidDisplaySurface :=
  ⟨none, true, ⟨⟨1, 1, 1, 5, 0⟩, 0⟩, ⟨1, 1, 1, 5, 2⟩, ⟨⟨1, 1, 1, 5, 1⟩, 1⟩,
    some ⟨1, 1⟩⟩

/-- Heap at `saveFrame` time in the C1 run. -/
def c1Hp1 : Heap := fun _ => [7, 7, 7, 7]

/-- Heap right after `saveFrame` in the C1 run. -/
def c1Hp2 : Heap := (c1S0.saveFrame c1Hp1).1

/-- The `drawSavedFrame` run on the re-installed target. -/
def c1Draw : AndroidDisplaySurface × Heap × Except String Unit :=
  (c1S0.setNativeSurface ⟨true⟩).drawSavedFrame c1Hp2
    ⟨true, some ⟨1, 1, 1, 5, 3⟩, true⟩

/-- C1 witness: the full sequence run on the concrete 1x1 instance; row 0
drawn into the target equals row 0 of the saved frame. -/
theorem C1_witness :
    c1S0.lock ⟨true, none, true⟩ = (c1S0, .ok ⟨1, 1, 1, 5, 0⟩) ∧
    rowBytes c1Draw.2.1 ⟨1, 1, 1, 5, 3⟩ 0
      = rowBytes c1Hp2 c1S0.mSavedFrameBuffer.mBuffer 0 :=
  ⟨rfl,
    C1_draw_saved_frame_reproduces c1S0 c1S0 c1Draw.1 c1Hp1 c1Hp2 c1Draw.2.1
      ⟨true, none, true⟩ ⟨true, none, true⟩ ⟨true, some ⟨1, 1, 1, 5, 3⟩, true⟩
      ⟨true⟩ ⟨1, 1, 1, 5, 0⟩ ⟨1, 1, 1, 5, 3⟩
      rfl rfl rfl rfl rfl (by decide) (by decide) (by decide) (by decide)
      (by decide) (by decide) (by decide) 0 (by decide)⟩
